import Mathlib

/-!
Verification development for the `DatetimeColumn` core of
`src/python/cudf/dataframe/datetime.py`.

The source file is a thin, null-aware millisecond-timestamp column layer.  Its
collaborators (the `columnops` base class, `cudf.utils.cudautils`,
`cudf.utils.utils`, `cudf._sort` and the `cudf.bindings.*` compute-engine
wrappers) are not part of the source tree under verification; where a claim
depends on them they are modelled from the specification (each such definition
says so in its doc comment).  Everything else is a direct shallow embedding of
the Python source: buffers become `List Int` (one entry per fixed-width word),
validity masks become `Option (List Bool)` (`true` = valid), machine floats
never carry values on the live paths (see the comments at the places where the
source mentions them), and fallible paths return `Except String`.
-/

/-- Numpy dtype tags that occur in the source file. -/
inductive DType
  | datetime64ms
  | int16
  | int32
  | int64
  | boolean
  deriving DecidableEq

/-- The column state used by `datetime.py`: the `data` buffer (8-byte words,
millisecond ticks for the datetime dtype), the optional validity mask
(`true` = valid, one bit per element), the cached `null_count` and the dtype
tag.  This is the state of `columnops.TypedColumnBase` that the source reads
and writes. -/
structure DatetimeColumn where
  data : List Int
  mask : Option (List Bool)
  null_count : Nat
  dtype : DType
  deriving DecidableEq

/-- `len(self)`: number of elements of the data buffer. -/
def DatetimeColumn.length (c : DatetimeColumn) : Nat := c.data.length

/-- Validity of entry `i`: an absent mask means every entry is valid. -/
def DatetimeColumn.validAt (c : DatetimeColumn) (i : Nat) : Bool :=
  match c.mask with
  | none => true
  | some m => m.getD i true

/-- Modelled from the spec: the base `Column` constructor
(`cudf.dataframe.columnops`, not in src/).  Per spec section 4.1, "if
`null_count` is omitted it must be computed from `mask`", and per structural
invariant 2 of section 3 the null count "must be 0 when `mask` is absent". -/
def mkColumn (data : List Int) (mask : Option (List Bool)) (ncOpt : Option Nat)
    (dtype : DType) : DatetimeColumn :=
  let nc := match mask, ncOpt with
    | none, _ => 0
    | some m, none => m.countP (fun b => !b)
    | some _, some n => n
  ⟨data, mask, nc, dtype⟩

/-- Modelled from the spec: `Column.replace` of the base class (not in src/).
Spec section 3, lifecycle (c): a shallow copy "with named fields substituted";
fields that are not supplied are carried over from the receiver, and the
result goes through the constructor normalization above.  Arguments are
positional (`none` = keyword not supplied; `some x` = keyword supplied with
value `x`, so `some none` for the mask argument is `mask=None`). -/
def DatetimeColumn.replace (c : DatetimeColumn) (dataOpt : Option (List Int))
    (maskOpt : Option (Option (List Bool))) (ncOpt : Option Nat)
    (dtypeOpt : Option DType) : DatetimeColumn :=
  mkColumn (dataOpt.getD c.data) (maskOpt.getD c.mask)
    (some (ncOpt.getD c.null_count)) (dtypeOpt.getD c.dtype)

/-! ## Host scalars and `normalize_binop_value` -/

/-- Resolution units a `numpy.datetime64` scalar can carry. -/
inductive TimeUnit
  | s
  | ms
  | us
  | ns
  deriving DecidableEq

/-- The host scalar inputs that `normalize_binop_value` inspects:
`datetime.datetime` (microsecond resolution), `pandas.Timestamp` (nanosecond
resolution, and — a fact of the Python class hierarchy — a subclass of
`datetime.datetime`), `numpy.datetime64` of some unit, and anything else. -/
inductive PyScalar
  | pyDatetime (us : Int)
  | pdTimestamp (ns : Int)
  | npDatetime64 (v : Int) (unit : TimeUnit)
  | other (typename : String)
  deriving DecidableEq

/-- `isinstance(other, dt.datetime)`.  `pandas.Timestamp` subclasses
`datetime.datetime`, so it also answers true here. -/
def PyScalar.is_dt_datetime : PyScalar → Bool
  | .pyDatetime _ => true
  | .pdTimestamp _ => true
  | _ => false

/-- `np.datetime64(other)` applied to a `datetime.datetime` instance: numpy
reads the microsecond-resolution datetime fields and produces a
microsecond-unit `datetime64`.  A `pandas.Timestamp` with raw nanosecond value
`n` exposes datetime fields worth `⌊n / 1000⌋` microseconds (pandas populates
the base-class fields with floor conversions).  Identity on the remaining
constructors (the source only applies it behind the `isinstance` guard). -/
def np_datetime64_of : PyScalar → PyScalar
  | .pyDatetime u => .npDatetime64 u .us
  | .pdTimestamp n => .npDatetime64 (n / 1000) .us
  | s => s

/-- `other.astype('datetime64[ms]')`: numpy unit conversion to milliseconds.
Upcasts multiply; downcasts use floor division. -/
def astype_ms (v : Int) : TimeUnit → Int
  | .s => v * 1000
  | .ms => v
  | .us => v / 1000
  | .ns => v / 1000000

/-- Modelled from the spec: `utils.scalar_broadcast_to` (not in src/), the
broadcast of section 4.2: "a new buffer of length equal to the target column's
length, every entry equal to the coerced scalar tick value". -/
def scalar_broadcast_to (v : Int) (n : Nat) : List Int := List.replicate n v

/-- `type(other)` as rendered into the `TypeError` message. -/
def typenameOf : PyScalar → String
  | .pyDatetime _ => "datetime.datetime"
  | .pdTimestamp _ => "pandas.Timestamp"
  | .npDatetime64 _ _ => "numpy.datetime64"
  | .other t => t

/-- `DatetimeColumn.normalize_binop_value` (datetime.py lines 94-116).

The first `isinstance(other, dt.datetime)` guard rebinds `other` to
`np.datetime64(other)`; because `pandas.Timestamp` is a `datetime.datetime`
subclass this also captures Timestamps, so the dedicated
`isinstance(other, pd.Timestamp)` branch below it is unreachable.  That dead
branch multiplies `other.value` by `self._pandas_conversion_factor`
(`1e9 * self._precision = 1e9 * 1e-3 = 1e6`, an exact float, embedded here as
the integer `1000000`).  The match arms are in the order of the source's
`if`/`elif` chain; the constructors are disjoint, so the order is
observationally the same. -/
def DatetimeColumn.normalize_binop_value (c : DatetimeColumn) (other0 : PyScalar) :
    Except String DatetimeColumn :=
  let other := if other0.is_dt_datetime then np_datetime64_of other0 else other0
  match other with
  | .pdTimestamp v =>
      let ary := scalar_broadcast_to (v * 1000000) c.length
      .ok (c.replace (some ary) none none (some c.dtype))
  | .npDatetime64 v u =>
      let o := astype_ms v u
      let ary := scalar_broadcast_to o c.length
      .ok (c.replace (some ary) none none (some c.dtype))
  | o => .error ("cannot broadcast " ++ typenameOf o)

/-! ## Field extraction (`get_dt_field`) -/

/-- Modelled from the spec: `columnops.column_empty_like_same_mask` (not in
src/): a fresh uninitialized buffer of the requested dtype "of the same
length, with the identical null mask as the source" (spec section 4.3);
uninitialized entries are embedded as 0. -/
def column_empty_like_same_mask (c : DatetimeColumn) (dtype : DType) : DatetimeColumn :=
  ⟨List.replicate c.length 0, c.mask, c.null_count, dtype⟩

/-- The supported field names of spec section 4.3. -/
def supported_dt_fields : List String :=
  ["year", "month", "day", "hour", "minute", "second"]

/-- Civil calendar from a day number relative to 1970-01-01 (proleptic
Gregorian), returning (year, month, day).  This is the per-element arithmetic
the external engine performs for the `year`/`month`/`day` fields. -/
def civilFromDays (z0 : Int) : Int × Int × Int :=
  let z := z0 + 719468
  let era := z / 146097
  let doe := z - era * 146097
  let yoe := (doe - doe / 1460 + doe / 36524 - doe / 146096) / 365
  let y := yoe + era * 400
  let doy := doe - (365 * yoe + yoe / 4 - yoe / 100)
  let mp := (5 * doy + 2) / 153
  let d := doy - (153 * mp + 2) / 5 + 1
  let m := mp + (if mp < 10 then 3 else -9)
  (if m ≤ 2 then y + 1 else y, m, d)

/-- Per-element datetime field extraction from a millisecond tick (the
engine's kernel arithmetic for the supported fields). -/
def dt_extract (field : String) (tick : Int) : Int :=
  let days := tick / 86400000
  let msod := tick % 86400000
  if field = "year" then (civilFromDays days).1
  else if field = "month" then (civilFromDays days).2.1
  else if field = "day" then (civilFromDays days).2.2
  else if field = "hour" then msod / 3600000
  else if field = "minute" then msod / 60000 % 60
  else msod / 1000 % 60

/-- Modelled from the spec: `cudf.bindings.unaryops.apply_dt_extract_op` (the
external compute engine, not in src/).  Spec sections 4.3 and 6: for a
supported field it writes the extracted values into the pre-allocated `out`
column (mask untouched, so "same mask"); for an unsupported field it "fails
with an error naming the field". -/
def apply_dt_extract_op (c out : DatetimeColumn) (field : String) :
    Except String DatetimeColumn :=
  if field ∈ supported_dt_fields then
    .ok { out with data := c.data.map (dt_extract field) }
  else
    .error ("invalid dt_field " ++ field)

/-- Result of one `get_dt_field` call together with how many external
compute-engine calls the layer performed while producing it. -/
structure DtFieldCall where
  result : Except String DatetimeColumn
  engine_calls : Nat

/-- `DatetimeColumn.get_dt_field` (datetime.py lines 82-92): allocates the
int16 output sharing the source mask, then unconditionally makes exactly one
engine call (`cpp_unaryops.apply_dt_extract_op`) — the source performs no
field-name validation of its own, so `engine_calls` is 1 on every path. -/
def DatetimeColumn.get_dt_field (c : DatetimeColumn) (field : String) : DtFieldCall :=
  let out := column_empty_like_same_mask c DType.int16
  { result := apply_dt_extract_op c out field, engine_calls := 1 }

/-! ## Comparisons (`binop`, `unordered_compare`, `ordered_compare`) -/

/-- Comparison operator tags routed through `binop`. -/
inductive CmpOp
  | eq
  | ne
  | lt
  | le
  | gt
  | ge
  deriving DecidableEq

/-- Per-element evaluation of a comparison on two ticks. -/
def cmpEval (op : CmpOp) (a b : Int) : Bool :=
  match op with
  | .eq => a == b
  | .ne => a != b
  | .lt => decide (a < b)
  | .le => decide (a ≤ b)
  | .gt => decide (b < a)
  | .ge => decide (b ≤ a)

/-- Modelled from the spec: `columnops.column_empty_like` (not in src/): an
uninitialized output column shaped like `c`, with a freshly allocated mask
exactly when `masked` is set. -/
def column_empty_like (c : DatetimeColumn) (dtype : DType) (masked : Bool) :
    DatetimeColumn :=
  ⟨List.replicate c.length 0,
    if masked then some (List.replicate c.length true) else none, 0, dtype⟩

/-- Modelled from the spec: `cudf.bindings.binops.apply_op` (the external
compute engine, not in src/).  Spec section 6: `binary_op(lhs, rhs, op, out)
-> null_count` "writes into pre-allocated out"; section 4.4: "the exact output
null pattern and null count are computed by the external compute engine".
The engine's pattern is the conjunction of the input validities; it is written
into `out`'s mask only when `out` was allocated with one. -/
def apply_op (lhs rhs out : DatetimeColumn) (op : CmpOp) : DatetimeColumn × Nat :=
  let d := List.zipWith (fun a b => if cmpEval op a b then (1 : Int) else 0)
    lhs.data rhs.data
  let outMask := out.mask.map (fun _ =>
    (List.range d.length).map (fun i => lhs.validAt i && rhs.validAt i))
  let nc := match outMask with
    | none => 0
    | some m => m.countP (fun b => !b)
  ({ out with data := d, mask := outMask }, nc)

/-- `binop` (datetime.py lines 219-226): allocate the output masked iff either
input has a null mask, let the engine fill it, and record the engine's
returned null count via `replace`. -/
def binop (lhs rhs : DatetimeColumn) (op : CmpOp) (out_dtype : DType) :
    DatetimeColumn :=
  let masked := lhs.mask.isSome || rhs.mask.isSome
  let out := column_empty_like lhs out_dtype masked
  let r := apply_op lhs rhs out op
  r.1.replace none none (some r.2) none

/-- `DatetimeColumn.unordered_compare` (datetime.py lines 131-137). -/
def DatetimeColumn.unordered_compare (c : DatetimeColumn) (cmpop : CmpOp)
    (rhs : DatetimeColumn) : DatetimeColumn :=
  binop c rhs cmpop DType.boolean

/-- `DatetimeColumn.ordered_compare` (datetime.py lines 139-145). -/
def DatetimeColumn.ordered_compare (c : DatetimeColumn) (cmpop : CmpOp)
    (rhs : DatetimeColumn) : DatetimeColumn :=
  binop c rhs cmpop DType.boolean

/-! ## Null filling (`fillna`) -/

/-- The fill inputs `fillna` distinguishes: `np.isscalar` values (embedded
after the source's `np.datetime64(fill_value, 'ms')` conversion, so as a
millisecond tick) and date/time array-likes (after `pd.to_datetime`, so as a
tick sequence). -/
inductive FillValue
  | scalar (ms : Int)
  | array (vs : List Int)
  deriving DecidableEq

/-- Modelled from the spec: `columnops.as_column(fill_value, nan_as_null=False)`
(not in src/): "a single-column representation of the fill value(s), with no
null entries of its own" (spec section 4.5) — a length-1 column for a scalar,
a positional column for an array-like. -/
def as_column (fv : FillValue) : DatetimeColumn :=
  match fv with
  | .scalar v => ⟨[v], none, 0, DType.datetime64ms⟩
  | .array vs => ⟨vs, none, 0, DType.datetime64ms⟩

/-- Modelled from the spec: `cudf.bindings.replace.replace_nulls` (the
external compute engine, not in src/).  Spec section 6: "fully resolves
nulls": every null position receives the fill value (a length-1 fill column is
broadcast, otherwise positional), every valid position keeps its value.  The
engine writes into the column it is handed; the updated column is returned. -/
def replace_nulls (c fill : DatetimeColumn) : DatetimeColumn :=
  let d := (List.range c.data.length).map (fun j =>
    if c.validAt j then c.data.getD j 0
    else fill.data.getD (if fill.data.length == 1 then 0 else j) 0)
  { c with data := d }

/-- `DatetimeColumn.fillna` (datetime.py lines 179-192), on the default
`inplace=False` path: copy, coerce the fill value, let the engine resolve the
nulls, then drop the mask via `replace(mask=None)`.  `self.copy()` is the
base class's value copy (identity on the embedded value). -/
def DatetimeColumn.fillna (c : DatetimeColumn) (fill_value : FillValue) :
    DatetimeColumn :=
  let result := c
  let fill_value_col := as_column fill_value
  let result := replace_nulls result fill_value_col
  let result := result.replace none (some none) none none
  result

/-! ## Sorting (`sort_by_values`) -/

/-- Stable insertion of `x` into a list ordered by the boolean relation `le`. -/
def insertByLe (le : Nat → Nat → Bool) (x : Nat) : List Nat → List Nat
  | [] => [x]
  | y :: ys => if le x y then x :: y :: ys else y :: insertByLe le x ys

/-- Insertion sort by the boolean relation `le`. -/
def sortByLe (le : Nat → Nat → Bool) : List Nat → List Nat
  | [] => []
  | x :: xs => insertByLe le x (sortByLe le xs)

/-- Modelled from the spec: `cudf._sort.get_sorted_inds` (not in src/).  Spec
sections 4.6 and 6: a permutation column of original positions that sorts the
values, honoring `ascending`, placing nulls at the end requested by
`na_position`, and stable (ties keep their original relative order — enforced
here by breaking ties on the original index, which makes the sorted order
unique).  The permutation column carries no mask. -/
def get_sorted_inds (c : DatetimeColumn) (ascending : Bool) (na_pos : String) :
    DatetimeColumn :=
  let n := c.length
  let keyLe : Nat → Nat → Bool := fun i j =>
    let vi := c.data.getD i 0
    let vj := c.data.getD j 0
    if vi = vj then decide (i ≤ j)
    else if ascending then decide (vi < vj) else decide (vj < vi)
  let nonNull := (List.range n).filter (fun i => c.validAt i)
  let nulls := (List.range n).filter (fun i => !(c.validAt i))
  let sorted := sortByLe keyLe nonNull
  let inds := if na_pos = "first" then nulls ++ sorted else sorted ++ nulls
  ⟨inds.map (fun i => (i : Int)), none, 0, DType.int32⟩

/-- Modelled from the spec: `cudautils.gather` (not in src/): `out[k] =
data[index[k]]` (spec glossary: "reordering/selecting elements of a buffer
according to an index permutation"). -/
def gather (data : List Int) (index : List Int) : List Int :=
  index.map (fun i => data.getD i.toNat 0)

/-- Modelled from the spec: the mask gather of spec section 4.6 step 3
(`_get_mask_as_column().take(...).as_mask()` in the source): the validity bits
reordered through the same permutation. -/
def gatherMask (m : List Bool) (index : List Int) : List Bool :=
  index.map (fun i => m.getD i.toNat true)

/-- `DatetimeColumn.sort_by_values` (datetime.py lines 194-210): obtain the
permutation from the engine, gather data (and, `if self.mask:`, the mask)
through it, and rebuild the keys column via `replace` with the original
`null_count` and dtype; the indices column is rebuilt from the permutation's
own data, mask and dtype. -/
def DatetimeColumn.sort_by_values (c : DatetimeColumn) (ascending : Bool)
    (na_pos : String) : DatetimeColumn × DatetimeColumn :=
  let sort_inds := get_sorted_inds c ascending na_pos
  let col_keys_data := gather c.data sort_inds.data
  let mask := match c.mask with
    | some m => some (gatherMask m sort_inds.data)
    | none => none
  let col_keys := c.replace (some col_keys_data) (some mask) (some c.null_count)
    (some c.dtype)
  let col_inds := c.replace (some sort_inds.data) (some sort_inds.mask) none
    (some sort_inds.dtype)
  (col_keys, col_inds)

/-! ## Serialization -/

/-- The serialization header: a mapping holding at least `null_count`, plus
the `dtype` entry that `DatetimeColumn.serialize` inserts (absent from the
base header). -/
structure SerialHeader where
  null_count : Nat
  dtype : Option DType
  deriving DecidableEq

/-- A serialization frame: raw buffer contents. -/
inductive Frame
  | dataFrame (xs : List Int)
  | maskFrame (m : List Bool)
  deriving DecidableEq

/-- Modelled from the spec: the base `Column.serialize` (not in src/).  Spec
section 6, wire form: "header is a mapping containing at least `null_count`
...; frames are the raw buffer contents for data and (if present) mask, in a
fixed order".  The base header carries no dtype entry. -/
def base_serialize (c : DatetimeColumn) : SerialHeader × List Frame :=
  (⟨c.null_count, none⟩,
    Frame.dataFrame c.data :: (match c.mask with
      | some m => [Frame.maskFrame m]
      | none => []))

/-- `DatetimeColumn.serialize` (datetime.py lines 38-42): extend the base
header with the serialized dtype.  The source's `assert 'dtype' not in header`
holds because the base header's dtype slot is `none`. -/
def DatetimeColumn.serialize (c : DatetimeColumn) : SerialHeader × List Frame :=
  let hf := base_serialize c
  ({ hf.1 with dtype := some c.dtype }, hf.2)

/-- Modelled from the spec: `cls._deserialize_data_mask` (base class, not in
src/): recover the data and optional mask buffers from the fixed frame
order. -/
def deserialize_data_mask (frames : List Frame) : List Int × Option (List Bool) :=
  match frames with
  | [Frame.dataFrame xs] => (xs, none)
  | [Frame.dataFrame xs, Frame.maskFrame m] => (xs, some m)
  | _ => ([], none)

/-- `DatetimeColumn.deserialize` (datetime.py lines 44-49): rebuild data and
mask from the frames, then construct the column with the header's null count
and the deserialized dtype. -/
def DatetimeColumn.deserialize (header : SerialHeader) (frames : List Frame) :
    DatetimeColumn :=
  let dm := deserialize_data_mask frames
  mkColumn dm.1 dm.2 (some header.null_count) (header.dtype.getD DType.datetime64ms)

/-! ## Arrow export (`to_arrow`) -/

/-- A buffer of the external binary array format: either a validity bitmap or
raw data bytes (8-byte words). -/
inductive ArrowBuffer
  | validity (bits : List Bool)
  | bytes (words : List Int)
  deriving DecidableEq

/-- Arrow-side type tags reachable from this file. -/
inductive PaDType
  | timestamp_ms
  | unsupported
  deriving DecidableEq

/-- `np_to_pa_dtype` (cudf.bindings.cudf_cpp, not in src/): `datetime64[ms]`
maps to the array format's millisecond-timestamp tag. -/
def np_to_pa_dtype (d : DType) : PaDType :=
  match d with
  | DType.datetime64ms => PaDType.timestamp_ms
  | _ => PaDType.unsupported

/-- `pa.Array.from_buffers(...)`: the exported binary array description. -/
structure ArrowArray where
  atype : PaDType
  length : Nat
  buffers : List (Option ArrowBuffer)
  null_count : Nat
  deriving DecidableEq

/-- `DatetimeColumn.to_arrow` (datetime.py lines 153-167): the validity buffer
exactly when `has_null_mask`, then the data buffer — the raw tick words
reinterpreted via `.view('int64')`, a byte-identical cast embedded as the
identity — with `length` and `null_count` copied verbatim. -/
def DatetimeColumn.to_arrow (c : DatetimeColumn) : ArrowArray :=
  let mask := match c.mask with
    | some m => some (ArrowBuffer.validity m)
    | none => none
  let d := ArrowBuffer.bytes c.data
  { atype := np_to_pa_dtype c.dtype, length := c.length,
    buffers := [mask, some d], null_count := c.null_count }

/-! ## Concrete columns used by witnesses and counterexamples -/

/-- Millisecond ticks for 2020-01-01, the epoch (standing in for a null slot),
and 2019-06-15. -/
def sampleData : List Int := [1577836800000, 0, 1560556800000]

/-- Validity bits: the middle entry is null. -/
def sampleMask : List Bool := [true, false, true]

/-- A well-formed masked column with one null. -/
def sampleCol : DatetimeColumn := ⟨sampleData, some sampleMask, 1, DType.datetime64ms⟩

/-- A well-formed unmasked two-element column. -/
def sampleColNoMask : DatetimeColumn := ⟨[5, 7], none, 0, DType.datetime64ms⟩

/-- A well-formed unmasked three-element column (same length as `sampleCol`). -/
def sampleCol2 : DatetimeColumn := ⟨[1, 2, 3], none, 0, DType.datetime64ms⟩

/-- The column `normalize_binop_value` produces from `sampleCol` and a
millisecond `numpy.datetime64` scalar of value 5 (used by the C10 witness). -/
def sampleBroadcastCol : DatetimeColumn :=
  ⟨List.replicate 3 5, some sampleMask, 1, DType.datetime64ms⟩

/-! ## Theorems for the claims -/

/-- C1: for every target column and every nanosecond-resolution timestamp
scalar (`pandas.Timestamp`) with raw integer value `v`,
`normalize_binop_value` produces a broadcast buffer of the column's length
whose every entry is the millisecond tick obtained by dividing `v` by 10^6
(floor division — the integer form of multiplying by the
milliseconds-per-nanosecond factor 1e-6).  The division happens through the
`datetime.datetime` branch (`np.datetime64` at microsecond resolution followed
by `astype('datetime64[ms]')`), since `pandas.Timestamp` subclasses
`datetime.datetime`. -/
theorem normalize_ns_timestamp_divides_by_1e6 (c : DatetimeColumn) (v : Int) :
    (c.normalize_binop_value (.pdTimestamp v)).map DatetimeColumn.data
      = .ok (List.replicate c.length (v / 1000000)) := by
  have h : v / 1000 / 1000 = v / 1000000 := by omega
  simp [DatetimeColumn.normalize_binop_value, PyScalar.is_dt_datetime,
    np_datetime64_of, astype_ms, scalar_broadcast_to, DatetimeColumn.replace,
    mkColumn, h, Except.map]

/-- C9 counterexample: a seconds-resolution `numpy.datetime64` scalar — which
is neither a native date/time value, nor a nanosecond-resolution timestamp,
nor a millisecond-granularity fixed-resolution timestamp — does not fail:
`normalize_binop_value` accepts it and converts it to millisecond ticks, so
the claimed type error is not raised for every input outside those three
categories. -/
theorem normalize_accepts_seconds_datetime64 :
    sampleColNoMask.normalize_binop_value (.npDatetime64 3 .s)
      = .ok ⟨[3000, 3000], none, 0, DType.datetime64ms⟩ := rfl

/-- C9 amended: the inputs rejected by `normalize_binop_value` are exactly
those that are not a native date/time value, not a nanosecond-resolution
timestamp, and not a fixed-resolution (`numpy.datetime64`) timestamp of any
granularity; every such input fails immediately with a type error naming the
offending type and no partial work performed. -/
theorem normalize_rejects_foreign_type (c : DatetimeColumn) (tyname : String) :
    c.normalize_binop_value (.other tyname)
      = .error ("cannot broadcast " ++ tyname) := rfl

/-- C10: when the target column carries a null mask, the broadcast column
returned by `normalize_binop_value` for a valid scalar inherits the target's
mask and null count unchanged — the `replace` call substitutes only data and
dtype. -/
theorem normalize_inherits_mask_nullcount (c : DatetimeColumn) (s : PyScalar)
    (r : DatetimeColumn) (m : List Bool) (hm : c.mask = some m)
    (hr : c.normalize_binop_value s = .ok r) :
    r.mask = some m ∧ r.null_count = c.null_count := by
  cases s <;>
    simp only [DatetimeColumn.normalize_binop_value, PyScalar.is_dt_datetime,
      np_datetime64_of, astype_ms, scalar_broadcast_to, DatetimeColumn.replace,
      mkColumn, hm, Option.getD, if_true, if_false, Except.ok.injEq,
      reduceCtorEq] at hr
  all_goals subst hr
  all_goals exact ⟨rfl, rfl⟩

/-- C10 witness: the theorem applied to the concrete masked `sampleCol` and a
millisecond `numpy.datetime64` scalar. -/
theorem normalize_inherits_mask_nullcount_witness :
    sampleCol.mask = some sampleMask
  ∧ sampleCol.normalize_binop_value (.npDatetime64 5 .ms) = .ok sampleBroadcastCol
  ∧ sampleBroadcastCol.mask = some sampleMask
  ∧ sampleBroadcastCol.null_count = sampleCol.null_count :=
  ⟨rfl, rfl,
    (normalize_inherits_mask_nullcount sampleCol (.npDatetime64 5 .ms)
      sampleBroadcastCol sampleMask rfl rfl).1,
    (normalize_inherits_mask_nullcount sampleCol (.npDatetime64 5 .ms)
      sampleBroadcastCol sampleMask rfl rfl).2⟩

/-- C8: `to_arrow` exports exactly two buffers in the fixed order
[validity bitmap or absent, data bytes], the data buffer being the raw
tick words with no value transformation, and length and null count copied
verbatim from the column. -/
theorem to_arrow_two_buffers_verbatim (c : DatetimeColumn) :
    (c.to_arrow).buffers
        = [c.mask.map ArrowBuffer.validity, some (ArrowBuffer.bytes c.data)]
  ∧ (c.to_arrow).length = c.data.length
  ∧ (c.to_arrow).null_count = c.null_count := by
  refine ⟨?_, rfl, rfl⟩
  cases hm : c.mask <;> simp [DatetimeColumn.to_arrow, hm]

/-- C5: for every column and every supported field name, `get_dt_field`
returns a 16-bit signed integer column of the same length whose null mask is
identical to the source column's mask. -/
theorem get_dt_field_preserves_mask (c : DatetimeColumn) (field : String)
    (h : field ∈ supported_dt_fields) :
    ∃ r, (c.get_dt_field field).result = .ok r
      ∧ r.data.length = c.data.length ∧ r.mask = c.mask ∧ r.dtype = DType.int16 := by
  refine ⟨{ column_empty_like_same_mask c DType.int16 with
      data := c.data.map (dt_extract field) }, ?_, by simp, rfl, rfl⟩
  simp [DatetimeColumn.get_dt_field, apply_dt_extract_op, h]

/-- C5 witness: the theorem applied to `sampleCol` and the field "year". -/
theorem get_dt_field_preserves_mask_witness :
    "year" ∈ supported_dt_fields
  ∧ ∃ r, (sampleCol.get_dt_field "year").result = .ok r
      ∧ r.data.length = sampleCol.data.length ∧ r.mask = sampleCol.mask
      ∧ r.dtype = DType.int16 :=
  ⟨by decide, get_dt_field_preserves_mask sampleCol "year" (by decide)⟩

/-- C7 counterexample: for the unsupported field name "weekday" the error does
name the field, but it is not detected at this layer's boundary before any
external compute-engine call: `get_dt_field` allocates the output column and
performs its (single, unconditional) engine call, and the error comes out of
that call — the engine-call count on the failing path is 1, not 0. -/
theorem get_dt_field_unsupported_calls_engine :
    (sampleCol.get_dt_field "weekday").result = .error "invalid dt_field weekday"
  ∧ (sampleCol.get_dt_field "weekday").engine_calls ≠ 0 :=
  ⟨rfl, by simp [DatetimeColumn.get_dt_field]⟩

/-- C7 amended: for every column and every field name outside the supported
set, field extraction fails with an error naming the field, but the error is
raised by the external compute-engine call itself: the layer performs the
output allocation and exactly one engine call without any prior field-name
validation of its own. -/
theorem get_dt_field_unsupported_error_from_engine (c : DatetimeColumn)
    (field : String) (h : field ∉ supported_dt_fields) :
    (c.get_dt_field field).result = .error ("invalid dt_field " ++ field)
  ∧ (c.get_dt_field field).engine_calls = 1 := by
  refine ⟨?_, rfl⟩
  simp [DatetimeColumn.get_dt_field, apply_dt_extract_op, h]

/-- C7 witness (for the amended claim): applied to `sampleColNoMask` and the
unsupported field name "weekday". -/
theorem get_dt_field_unsupported_error_witness :
    "weekday" ∉ supported_dt_fields
  ∧ ((sampleColNoMask.get_dt_field "weekday").result
        = .error ("invalid dt_field " ++ "weekday")
      ∧ (sampleColNoMask.get_dt_field "weekday").engine_calls = 1) :=
  ⟨by decide,
    get_dt_field_unsupported_error_from_engine sampleColNoMask "weekday" (by decide)⟩

/-- C6: for equal-length inputs and any comparison operator, `binop` returns a
boolean column that carries a mask if and only if at least one input carries a
mask, and whose recorded null count is exactly the value returned by the
external engine's `apply_op` call (the engine is handed the pre-allocated
output `column_empty_like lhs DType.boolean masked`). -/
theorem binop_mask_iff_and_engine_nullcount (lhs rhs : DatetimeColumn)
    (op : CmpOp) (h : lhs.data.length = rhs.data.length) :
    ((binop lhs rhs op DType.boolean).mask.isSome
        ↔ (lhs.mask.isSome ∨ rhs.mask.isSome))
  ∧ (binop lhs rhs op DType.boolean).dtype = DType.boolean
  ∧ (binop lhs rhs op DType.boolean).null_count
      = (apply_op lhs rhs
          (column_empty_like lhs DType.boolean (lhs.mask.isSome || rhs.mask.isSome))
          op).2 := by
  cases hl : lhs.mask <;> cases hr : rhs.mask <;>
    simp [binop, apply_op, column_empty_like, DatetimeColumn.replace, mkColumn, hl, hr]

/-- C6 witness: the theorem applied to the equal-length pair `sampleCol`
(masked) and `sampleCol2` (unmasked) with the `<` operator. -/
theorem binop_mask_iff_witness :
    sampleCol.data.length = sampleCol2.data.length
  ∧ (((binop sampleCol sampleCol2 CmpOp.lt DType.boolean).mask.isSome
        ↔ (sampleCol.mask.isSome ∨ sampleCol2.mask.isSome))
      ∧ (binop sampleCol sampleCol2 CmpOp.lt DType.boolean).dtype = DType.boolean
      ∧ (binop sampleCol sampleCol2 CmpOp.lt DType.boolean).null_count
          = (apply_op sampleCol sampleCol2
              (column_empty_like sampleCol DType.boolean
                (sampleCol.mask.isSome || sampleCol2.mask.isSome))
              CmpOp.lt).2) :=
  ⟨by decide,
    binop_mask_iff_and_engine_nullcount sampleCol sampleCol2 CmpOp.lt (by decide)⟩

/-- C2: `fillna` returns a column whose mask is cleared — null count 0,
unconditionally — and every originally non-null entry keeps its original
value. -/
theorem fillna_clears_nulls (c : DatetimeColumn) (fv : FillValue) (i : Nat)
    (hi : i < c.data.length) (hv : c.validAt i = true) :
    (c.fillna fv).null_count = 0 ∧ (c.fillna fv).mask = none
  ∧ (c.fillna fv).data.getD i 0 = c.data.getD i 0 := by
  refine ⟨rfl, rfl, ?_⟩
  simp [DatetimeColumn.fillna, replace_nulls, DatetimeColumn.replace, mkColumn,
    List.getD_eq_getElem?_getD, List.getElem?_map, List.getElem?_range, hi, hv]

/-- C2 witness: the theorem applied to `sampleCol` (which has a null at
position 1), a scalar fill value, and the valid position 0. -/
theorem fillna_clears_nulls_witness :
    (0 < sampleCol.data.length ∧ sampleCol.validAt 0 = true)
  ∧ ((sampleCol.fillna (.scalar 42)).null_count = 0
      ∧ (sampleCol.fillna (.scalar 42)).mask = none
      ∧ (sampleCol.fillna (.scalar 42)).data.getD 0 0 = sampleCol.data.getD 0 0) :=
  ⟨⟨by decide, by decide⟩,
    fillna_clears_nulls sampleCol (.scalar 42) 0 (by decide) (by decide)⟩

/-- C3: for every column and every setting of `ascending` and `na_position`,
gathering the column's data (and mask, when present) through the indices
column returned by `sort_by_values` reproduces the returned keys column (its
data buffer, its mask, and — via `replace` — its dtype). -/
theorem sort_by_values_gather_reproduces_keys (c : DatetimeColumn)
    (ascending : Bool) (na_pos : String) :
    ((c.sort_by_values ascending na_pos).1.data
        = gather c.data ((c.sort_by_values ascending na_pos).2.data))
  ∧ ((c.sort_by_values ascending na_pos).1.mask
        = c.mask.map (fun m =>
            gatherMask m ((c.sort_by_values ascending na_pos).2.data)))
  ∧ ((c.sort_by_values ascending na_pos).1.dtype = c.dtype) := by
  cases hm : c.mask <;>
    simp [DatetimeColumn.sort_by_values, DatetimeColumn.replace, mkColumn, hm]

/-- C4: `deserialize` after `serialize` reproduces the column — data, mask,
null count and dtype — for every column satisfying structural invariant 2
(null count 0 when the mask is absent). -/
theorem serialize_roundtrip (c : DatetimeColumn)
    (h : c.mask = none → c.null_count = 0) :
    DatetimeColumn.deserialize (c.serialize).1 (c.serialize).2 = c := by
  cases hm : c.mask with
  | none =>
      have h0 := h hm
      cases c
      simp_all [DatetimeColumn.serialize, base_serialize,
        DatetimeColumn.deserialize, deserialize_data_mask, mkColumn]
  | some m =>
      cases c
      simp_all [DatetimeColumn.serialize, base_serialize,
        DatetimeColumn.deserialize, deserialize_data_mask, mkColumn]

/-- C4 witness: the round trip at the concrete masked column `sampleCol`. -/
theorem serialize_roundtrip_witness :
    (sampleCol.mask = none → sampleCol.null_count = 0)
  ∧ DatetimeColumn.deserialize (sampleCol.serialize).1 (sampleCol.serialize).2
      = sampleCol :=
  ⟨by decide, serialize_roundtrip sampleCol (by decide)⟩
